import Mathlib

/-!
Shallow embedding of the `victorops` translation handler of
am-rest-translator (package `translators`): the Alertmanager → VictorOps
webhook translator.  Go maps are embedded as association lists in the
enumeration order the runtime happens to choose; the downstream VictorOps
service is embedded as an oracle assigning to each POST (numbered in
dispatch order) the outcome the handler observes; `net/http`'s
ResponseWriter is embedded with its write-once status semantics (the first
`Write` fixes the status to 200 when no header was written, and later
`WriteHeader` calls are ignored).
-/

namespace AmRestTranslator

/-- One Alertmanager alert as the handler reads it: label and annotation
maps (entries listed in the runtime's enumeration order, keys unique),
start time in Unix seconds, and the generator URL. -/
structure Alert where
  labels : List (String × String)
  annotations : List (String × String)
  startsAt : Int
  generatorURL : String
deriving DecidableEq

/-- The `template.Data` part of `notify.WebhookMessage`: status, the
values of the group labels (as `.Values()` yields them), the Alertmanager
external URL, and the alert list. -/
structure WebhookData where
  status : String
  groupLabelValues : List String
  externalURL : String
  alerts : List Alert
deriving DecidableEq

/-- The decoded `notify.WebhookMessage`: a `uint64` group key and the
embedded `*template.Data`, which is `none` when the pointer is nil. -/
structure WebhookMessage where
  groupKey : Nat
  data : Option WebhookData
deriving DecidableEq

/-- An inbound HTTP request as the handler sees it: the result of JSON
decoding the body, and the URL query parameters (each key maps to the
list of its values). -/
structure Request where
  body : Except String WebhookMessage
  query : List (String × List String)

/-- The outbound VictorOps payload (`victoropsPost`); unset fields keep
the Go zero value. -/
structure victoropsPost where
  messageType : String := ""
  entityID : String := ""
  timestamp : Int := 0
  stateStartTime : Int := 0
  stateMessage : String := ""
  monitoringTool : String := ""
  entityDisplayName : String := ""
  ackMessage : String := ""
  ackAuthor : String := ""
deriving DecidableEq

/-- The VictorOps response envelope (`victoropsResponse`); the Go zero
value (all fields empty) is what a failed decode leaves behind. -/
structure victoropsResponse where
  result : String := ""
  entityID : String := ""
  message : String := ""
deriving DecidableEq

/-- What the handler observes from one `http.Post` to VictorOps:
whether transport succeeded (`err == nil`), the transport error text
otherwise, the HTTP status code, and the result of decoding the response
body into the envelope (`none` means the decode failed, with its error
text). -/
structure DownstreamResponse where
  transportOk : Bool := true
  transportErr : String := ""
  statusCode : Nat := 200
  decoded : Option victoropsResponse := none
  decodeErr : String := ""

/-- The downstream oracle: the outcome of the n-th POST issued while
handling one request. -/
def Downstream : Type := Nat → DownstreamResponse

/-- An `http.ResponseWriter`: the status code once something fixed it,
and the accumulated body. -/
structure ResponseWriter where
  code : Option Nat
  body : String
deriving DecidableEq

/-- WriteHeader: sets the status code unless one is already fixed
(net/http ignores superfluous calls). -/
def ResponseWriter.writeHeader (rw : ResponseWriter) (c : Nat) : ResponseWriter :=
  match rw.code with
  | none => { rw with code := some c }
  | some _ => rw

/-- Write: appends to the body, implicitly fixing status 200 when no
header was written yet. -/
def ResponseWriter.write (rw : ResponseWriter) (s : String) : ResponseWriter :=
  { code := some (rw.code.getD 200), body := rw.body ++ s }

/-- The status code the original caller receives: 200 when the handler
returned without writing a header. -/
def finalCode (rw : ResponseWriter) : Nat := rw.code.getD 200

/-- One outbound dispatch: the URL posted to and the payload. -/
structure Dispatch where
  url : String
  post : victoropsPost
deriving DecidableEq

/-- Extraction of one query parameter: the first value when the key is
present with a non-empty value list, else the empty string. -/
def queryFirst (q : List (String × List String)) (k : String) : String :=
  match q.lookup k with
  | some (v :: _) => v
  | _ => ""

/-- Go map indexing `m[k]`: the value when present, the zero value ""
otherwise. -/
def mapGet (m : List (String × String)) (k : String) : String :=
  (m.lookup k).getD ""

/-- One `k: v` line of the state message, with its trailing newline. -/
def entryLine (p : String × String) : String := p.1 ++ ": " ++ p.2 ++ "\n"

/-- Concatenation of the `k: v` lines of a map, in enumeration order
(the `+=` loop of the handler). -/
def kvLines (m : List (String × String)) : String :=
  m.foldl (fun acc p => acc ++ entryLine p) ""

/-- The VictorOps ingestion URL with the two credentials in the path. -/
def victoropsURL (apiKey routingKey : String) : String :=
  "https://alert.victorops.com/integrations/generic/20131114/alert/" ++ apiKey ++ "/" ++ routingKey

/-- The payload built in the firing branch for one alert. -/
def firingPost (now : Int) (externalURL : String) (groupKey : Nat)
    (displayName : String) (a : Alert) : victoropsPost :=
  { messageType :=
      if mapGet a.labels "victorops_message_type" ≠ "" then
        mapGet a.labels "victorops_message_type"
      else "CRITICAL"
    entityID := Nat.repr groupKey
    timestamp := now
    stateStartTime := a.startsAt
    stateMessage :=
      kvLines a.annotations ++ kvLines a.labels
        ++ "Prometheus: " ++ a.generatorURL ++ "\n"
        ++ "Alertmanager: " ++ externalURL
    monitoringTool := "Prometheus Alertmanager"
    entityDisplayName := displayName }

/-- The firing branch loop: one dispatch per alert, threading the
response writer; the n-th POST gets outcome `env n`.  Returns the final
writer and the list of dispatches issued, in order. -/
def firingLoop (apiKey routingKey : String) (now : Int) (externalURL : String)
    (groupKey : Nat) (displayName : String) (env : Downstream) :
    List Alert → Nat → ResponseWriter → ResponseWriter × List Dispatch
  | [], _, rw => (rw, [])
  | a :: rest, n, rw =>
    let vp := firingPost now externalURL groupKey displayName a
    let dp : Dispatch := ⟨victoropsURL apiKey routingKey, vp⟩
    let r := env n
    if r.transportOk = false then
      ((rw.writeHeader 502).write ("Failed post to VictorOps REST api: " ++ r.transportErr), [dp])
    else
      let step : ResponseWriter × victoropsResponse :=
        match r.decoded with
        | some vr => (rw, vr)
        | none => (rw.write ("Could not decode VictorOps response body: " ++ r.decodeErr), {})
      if r.statusCode / 100 ≠ 2 then
        ((step.1.writeHeader 502).write
          ("Unexpected status code " ++ Nat.repr r.statusCode ++ " from VictorOps: " ++ step.2.message),
         [dp])
      else
        let res := firingLoop apiKey routingKey now externalURL groupKey displayName env rest (n + 1) step.1
        (res.1, dp :: res.2)

/-- The resolved branch: one RECOVERY dispatch; decode failure here
writes the 502 header and aborts. -/
def resolvedBranch (apiKey routingKey : String) (now : Int) (groupKey : Nat)
    (displayName : String) (env : Downstream) (rw : ResponseWriter) :
    ResponseWriter × List Dispatch :=
  let vp : victoropsPost :=
    { messageType := "RECOVERY"
      entityID := Nat.repr groupKey
      timestamp := now
      stateMessage := "Entity recovered"
      monitoringTool := "Prometheus Alertmanager"
      entityDisplayName := displayName }
  let dp : Dispatch := ⟨victoropsURL apiKey routingKey, vp⟩
  let r := env 0
  if r.transportOk = false then
    ((rw.writeHeader 502).write ("Failed post to VictorOps REST api: " ++ r.transportErr), [dp])
  else
    match r.decoded with
    | none =>
      ((rw.writeHeader 502).write ("Could not decode VictorOps response body: " ++ r.decodeErr), [dp])
    | some vr =>
      if r.statusCode / 100 ≠ 2 then
        ((rw.writeHeader 502).write
          ("Unexpected status code " ++ vr.message ++ " from VictorOps: "), [dp])
      else (rw, [dp])

/-- The `/victorops` handler: decode, validate, extract credentials,
branch on status.  `now` is the wall-clock reading used for timestamps;
the result is the final response writer and the dispatch trace. -/
def victorops (now : Int) (env : Downstream) (req : Request) :
    ResponseWriter × List Dispatch :=
  let rw : ResponseWriter := ⟨none, ""⟩
  match req.body with
  | .error e =>
    ((rw.writeHeader 400).write ("Could not decode Alertmanager request body: " ++ e), [])
  | .ok wm =>
    match wm.data with
    | none => ((rw.writeHeader 400).write "Missing fields request body", [])
    | some d =>
      let apiKey := queryFirst req.query "api_key"
      let routingKey := queryFirst req.query "routing_key"
      if apiKey = "" ∨ routingKey = "" then
        ((rw.writeHeader 400).write
          "requires query parameters \x27api_key\x27 and \x27routing_key\x27", [])
      else
        let displayName := String.intercalate ":" d.groupLabelValues
        if d.status = "firing" then
          firingLoop apiKey routingKey now d.externalURL wm.groupKey displayName env d.alerts 0 rw
        else if d.status = "resolved" then
          resolvedBranch apiKey routingKey now wm.groupKey displayName env rw
        else
          ((rw.writeHeader 400).write ("Unknown Alertmanager status: " ++ d.status), [])

/-- The JSON object `json.Marshal` produces for a payload, as a key/value
list: `message_type` always, every other field only when non-zero
(`omitempty`). -/
def marshalFields (p : victoropsPost) : List (String × String) :=
  [("message_type", p.messageType)]
  ++ (if p.entityID = "" then [] else [("entity_id", p.entityID)])
  ++ (if p.timestamp = 0 then [] else [("timestamp", toString p.timestamp)])
  ++ (if p.stateStartTime = 0 then [] else [("state_start_time", toString p.stateStartTime)])
  ++ (if p.stateMessage = "" then [] else [("state_message", p.stateMessage)])
  ++ (if p.monitoringTool = "" then [] else [("monitoring_tool", p.monitoringTool)])
  ++ (if p.entityDisplayName = "" then [] else [("entity_display_name", p.entityDisplayName)])
  ++ (if p.ackMessage = "" then [] else [("ack_msg", p.ackMessage)])
  ++ (if p.ackAuthor = "" then [] else [("ack_author", p.ackAuthor)])

/-- The dispatch the firing branch issues for one alert. -/
def firingDispatch (apiKey routingKey : String) (now : Int) (externalURL : String)
    (groupKey : Nat) (displayName : String) (a : Alert) : Dispatch :=
  ⟨victoropsURL apiKey routingKey, firingPost now externalURL groupKey displayName a⟩

/-- The state message the specification's wording prescribes for the
firing branch: annotation lines, label lines, then a
`source: <generatorURL>` line and an `aggregator: <externalURL>` line. -/
def stateMessageSpecForm (externalURL : String) (a : Alert) : String :=
  kvLines a.annotations ++ kvLines a.labels
    ++ "source: " ++ a.generatorURL ++ "\n"
    ++ "aggregator: " ++ externalURL

/-- A downstream outcome the handler treats as full success at step n:
transport succeeded and the status code is 2xx. -/
def okAt (env : Downstream) (n : Nat) : Prop :=
  (env n).transportOk = true ∧ (env n).statusCode / 100 = 2

instance (env : Downstream) (n : Nat) : Decidable (okAt env n) := by
  unfold okAt; infer_instance

theorem firingLoop_trace_allOk (apiKey routingKey : String) (now : Int)
    (externalURL : String) (groupKey : Nat) (displayName : String) (env : Downstream)
    (alerts : List Alert) :
    ∀ (n : Nat) (rw : ResponseWriter),
      (∀ i, i < alerts.length → okAt env (n + i)) →
      (firingLoop apiKey routingKey now externalURL groupKey displayName env alerts n rw).2
        = alerts.map (firingDispatch apiKey routingKey now externalURL groupKey displayName) := by
  induction alerts with
  | nil => intro n rw _; simp [firingLoop]
  | cons a rest ih =>
    intro n rw h
    have h0 := h 0 (by simp)
    rw [Nat.add_zero] at h0
    have hshift : ∀ i, i < rest.length → okAt env (n + 1 + i) := by
      intro i hi
      have := h (i + 1) (by simpa using Nat.succ_lt_succ hi)
      rwa [show n + (i + 1) = n + 1 + i by omega] at this
    cases hd : (env n).decoded with
    | none =>
      simp only [firingLoop, h0.1, h0.2, hd, Bool.true_eq_false, if_false, ne_eq,
        not_true_eq_false, if_neg, List.map_cons]
      exact congrArg _ (ih (n + 1) _ hshift)
    | some vr =>
      simp only [firingLoop, h0.1, h0.2, hd, Bool.true_eq_false, if_false, ne_eq,
        not_true_eq_false, if_neg, List.map_cons]
      exact congrArg _ (ih (n + 1) _ hshift)

theorem firingLoop_trace_firstFail (apiKey routingKey : String) (now : Int)
    (externalURL : String) (groupKey : Nat) (displayName : String) (env : Downstream)
    (alerts : List Alert) :
    ∀ (n : Nat) (rw : ResponseWriter) (i : Nat), i < alerts.length →
      (∀ j, j < i → okAt env (n + j)) →
      ¬ okAt env (n + i) →
      (firingLoop apiKey routingKey now externalURL groupKey displayName env alerts n rw).2
        = (alerts.take (i + 1)).map
            (firingDispatch apiKey routingKey now externalURL groupKey displayName) := by
  induction alerts with
  | nil => intro n rw i hi _ _; exact absurd hi (by simp)
  | cons a rest ih =>
    intro n rw i hi hgood hfail
    cases i with
    | zero =>
      rw [Nat.add_zero] at hfail
      simp only [List.take_succ_cons, List.take_zero, List.map_cons, List.map_nil]
      cases htr : (env n).transportOk with
      | false => simp [firingLoop, htr, firingDispatch]
      | true =>
        have hst : (env n).statusCode / 100 ≠ 2 := by
          intro hc; exact hfail ⟨htr, hc⟩
        cases hd : (env n).decoded with
        | none => simp [firingLoop, htr, hd, hst, firingDispatch]
        | some vr => simp [firingLoop, htr, hd, hst, firingDispatch]
    | succ i =>
      have h0 := hgood 0 (Nat.succ_pos i)
      rw [Nat.add_zero] at h0
      have hgood2 : ∀ j, j < i → okAt env (n + 1 + j) := by
        intro j hj
        have := hgood (j + 1) (Nat.succ_lt_succ hj)
        rwa [show n + (j + 1) = n + 1 + j by omega] at this
      have hfail2 : ¬ okAt env (n + 1 + i) := by
        rwa [show n + 1 + i = n + (i + 1) by omega]
      have hi2 : i < rest.length := Nat.lt_of_succ_lt_succ hi
      simp only [List.take_succ_cons, List.map_cons]
      cases hd : (env n).decoded with
      | none =>
        simp only [firingLoop, h0.1, h0.2, hd, Bool.true_eq_false, if_false, ne_eq,
          not_true_eq_false, if_neg, List.map_cons]
        exact congrArg _ (ih (n + 1) _ i hi2 hgood2 hfail2)
      | some vr =>
        simp only [firingLoop, h0.1, h0.2, hd, Bool.true_eq_false, if_false, ne_eq,
          not_true_eq_false, if_neg, List.map_cons]
        exact congrArg _ (ih (n + 1) _ i hi2 hgood2 hfail2)

theorem firingLoop_rw_reject (apiKey routingKey : String) (now : Int)
    (externalURL : String) (groupKey : Nat) (displayName : String) (env : Downstream)
    (alerts : List Alert) :
    ∀ (n : Nat) (rw : ResponseWriter) (i : Nat) (vr : victoropsResponse),
      i < alerts.length →
      (∀ j, j < i → okAt env (n + j) ∧ ((env (n + j)).decoded).isSome = true) →
      (env (n + i)).transportOk = true →
      (env (n + i)).statusCode / 100 ≠ 2 →
      (env (n + i)).decoded = some vr →
      (firingLoop apiKey routingKey now externalURL groupKey displayName env alerts n rw).1
        = (rw.writeHeader 502).write
            ("Unexpected status code " ++ Nat.repr ((env (n + i)).statusCode)
              ++ " from VictorOps: " ++ vr.message) := by
  induction alerts with
  | nil => intro n rw i vr hi _ _ _ _; exact absurd hi (by simp)
  | cons a rest ih =>
    intro n rw i vr hi hgood htr hst hd
    cases i with
    | zero =>
      rw [Nat.add_zero] at htr hst hd
      simp [firingLoop, htr, hd, hst]
    | succ i =>
      have h0 := hgood 0 (Nat.succ_pos i)
      rw [Nat.add_zero] at h0
      obtain ⟨⟨htr0, hst0⟩, hdec0⟩ := h0
      obtain ⟨vr0, hd0⟩ := Option.isSome_iff_exists.mp hdec0
      have hgood2 : ∀ j, j < i → okAt env (n + 1 + j) ∧ ((env (n + 1 + j)).decoded).isSome = true := by
        intro j hj
        have := hgood (j + 1) (Nat.succ_lt_succ hj)
        rwa [show n + (j + 1) = n + 1 + j by omega] at this
      have hsh : n + (i + 1) = n + 1 + i := by omega
      rw [hsh] at htr hst hd
      have hi2 : i < rest.length := Nat.lt_of_succ_lt_succ hi
      simp only [firingLoop, htr0, hst0, hd0, Bool.true_eq_false, if_false, ne_eq,
        not_true_eq_false, if_neg]
      rw [hsh]
      exact ih (n + 1) rw i vr hi2 hgood2 htr hst hd

theorem victorops_firing (now : Int) (env : Downstream) (req : Request)
    (wm : WebhookMessage) (d : WebhookData)
    (h1 : req.body = Except.ok wm) (h2 : wm.data = some d)
    (h3 : queryFirst req.query "api_key" ≠ "")
    (h4 : queryFirst req.query "routing_key" ≠ "")
    (h5 : d.status = "firing") :
    victorops now env req
      = firingLoop (queryFirst req.query "api_key") (queryFirst req.query "routing_key")
          now d.externalURL wm.groupKey (String.intercalate ":" d.groupLabelValues)
          env d.alerts 0 ⟨none, ""⟩ := by
  simp only [victorops, h1, h2, h5]
  rw [if_neg (by simp [h3, h4])]
  simp

theorem victorops_resolved (now : Int) (env : Downstream) (req : Request)
    (wm : WebhookMessage) (d : WebhookData)
    (h1 : req.body = Except.ok wm) (h2 : wm.data = some d)
    (h3 : queryFirst req.query "api_key" ≠ "")
    (h4 : queryFirst req.query "routing_key" ≠ "")
    (h5 : d.status = "resolved") :
    victorops now env req
      = resolvedBranch (queryFirst req.query "api_key") (queryFirst req.query "routing_key")
          now wm.groupKey (String.intercalate ":" d.groupLabelValues) env ⟨none, ""⟩ := by
  simp only [victorops, h1, h2, h5]
  rw [if_neg (by simp [h3, h4])]
  simp

/-- A test alert carrying the message-type override label. -/
def alertA : Alert :=
  { labels := [("victorops_message_type", "WARNING"), ("sev", "page")]
    annotations := [("summary", "disk full")]
    startsAt := 5
    generatorURL := "http://prom/graph" }

/-- A test alert without the override label. -/
def alertPlain : Alert :=
  { labels := [("sev", "page")]
    annotations := []
    startsAt := 7
    generatorURL := "http://prom/g2" }

/-- A downstream that accepts every POST with a decodable success body. -/
def okDownstream : Downstream :=
  fun _ => { transportOk := true, statusCode := 200, decoded := some { result := "success" } }

/-- A downstream that rejects every POST: 500 with a decodable failure body. -/
def rejectDownstream : Downstream :=
  fun _ =>
    { transportOk := true, statusCode := 500
      decoded := some { result := "failure", message := "bad routing key" } }

/-- A downstream that rejects every POST with an undecodable body. -/
def undecodableRejectDownstream : Downstream :=
  fun _ =>
    { transportOk := true, statusCode := 500, decoded := none
      decodeErr := "invalid character" }

/-- A well-formed test request with the given status and alerts and both
credentials present. -/
def mkReq (status : String) (alerts : List Alert) : Request :=
  { body := Except.ok
      { groupKey := 42
        data := some
          { status := status
            groupLabelValues := ["web", "prod"]
            externalURL := "http://am.example"
            alerts := alerts } }
    query := [("api_key", ["k1"]), ("routing_key", ["r1"])] }

theorem okDownstream_ok (n : Nat) : okAt okDownstream n := by
  simp [okAt, okDownstream]

theorem victorops_firing_trace (now : Int) (env : Downstream) (req : Request)
    (wm : WebhookMessage) (d : WebhookData)
    (h1 : req.body = Except.ok wm) (h2 : wm.data = some d)
    (h3 : queryFirst req.query "api_key" ≠ "")
    (h4 : queryFirst req.query "routing_key" ≠ "")
    (h5 : d.status = "firing")
    (h6 : ∀ i, i < d.alerts.length → okAt env i) :
    (victorops now env req).2
      = d.alerts.map (firingDispatch (queryFirst req.query "api_key")
          (queryFirst req.query "routing_key") now d.externalURL wm.groupKey
          (String.intercalate ":" d.groupLabelValues)) := by
  rw [victorops_firing now env req wm d h1 h2 h3 h4 h5]
  exact firingLoop_trace_allOk (queryFirst req.query "api_key")
    (queryFirst req.query "routing_key") now d.externalURL wm.groupKey
    (String.intercalate ":" d.groupLabelValues) env d.alerts 0 ⟨none, ""⟩
    (by intro i hi; simpa using h6 i hi)

/-- C1: for every inbound message with status "firing" containing N alerts
and valid credentials (and a downstream accepting each POST), the handler
issues exactly N dispatches, one per alert in input order, and every
dispatched payload's entity identifier is the decimal string of the
inbound group key. -/
theorem C1_firing_one_dispatch_per_alert (now : Int) (env : Downstream) (req : Request)
    (wm : WebhookMessage) (d : WebhookData)
    (h1 : req.body = Except.ok wm) (h2 : wm.data = some d)
    (h3 : queryFirst req.query "api_key" ≠ "")
    (h4 : queryFirst req.query "routing_key" ≠ "")
    (h5 : d.status = "firing")
    (h6 : ∀ i, i < d.alerts.length → okAt env i) :
    (victorops now env req).2
        = d.alerts.map (firingDispatch (queryFirst req.query "api_key")
            (queryFirst req.query "routing_key") now d.externalURL wm.groupKey
            (String.intercalate ":" d.groupLabelValues))
      ∧ (victorops now env req).2.length = d.alerts.length
      ∧ ∀ dp ∈ (victorops now env req).2, dp.post.entityID = Nat.repr wm.groupKey := by
  have htrace := victorops_firing_trace now env req wm d h1 h2 h3 h4 h5 h6
  rw [htrace]
  refine ⟨rfl, by simp, ?_⟩
  intro dp hdp
  obtain ⟨a, _, rfl⟩ := List.mem_map.mp hdp
  rfl

/-- Witness for C1 at a concrete two-alert firing request. -/
theorem C1_firing_one_dispatch_per_alert_witness :
    (victorops 100 okDownstream (mkReq "firing" [alertA, alertPlain])).2.length = 2 :=
  (C1_firing_one_dispatch_per_alert 100 okDownstream (mkReq "firing" [alertA, alertPlain])
    _ _ rfl rfl (by decide) (by decide) rfl (fun i _ => okDownstream_ok i)).2.1

theorem resolvedBranch_trace (apiKey routingKey : String) (now : Int) (groupKey : Nat)
    (displayName : String) (env : Downstream) (rw : ResponseWriter) :
    (resolvedBranch apiKey routingKey now groupKey displayName env rw).2
      = [⟨victoropsURL apiKey routingKey,
          { messageType := "RECOVERY"
            entityID := Nat.repr groupKey
            timestamp := now
            stateMessage := "Entity recovered"
            monitoringTool := "Prometheus Alertmanager"
            entityDisplayName := displayName }⟩] := by
  simp only [resolvedBranch]
  split
  · rfl
  · split
    · rfl
    · split
      · rfl
      · rfl

/-- C2 counterexample: on a concrete resolved request the single dispatched
state message is "Entity recovered" (capital E), not the claimed fixed text
"entity recovered". -/
theorem C2_counterexample :
    Option.map victoropsPost.stateMessage (Option.map Dispatch.post
        (victorops 100 okDownstream (mkReq "resolved" [alertA])).2.head?)
      = some "Entity recovered"
    ∧ some "Entity recovered" ≠ some "entity recovered" := by
  exact ⟨rfl, by decide⟩

/-- C2 (amended): for every inbound message with status "resolved" and valid
credentials, the handler issues exactly one dispatch, of kind RECOVERY, with
state-start time 0 (hence omitted from the serialized payload) and state
message "Entity recovered", regardless of how many alerts the message
contains. -/
theorem C2_resolved_single_recovery (now : Int) (env : Downstream) (req : Request)
    (wm : WebhookMessage) (d : WebhookData)
    (h1 : req.body = Except.ok wm) (h2 : wm.data = some d)
    (h3 : queryFirst req.query "api_key" ≠ "")
    (h4 : queryFirst req.query "routing_key" ≠ "")
    (h5 : d.status = "resolved") :
    (victorops now env req).2
      = [⟨victoropsURL (queryFirst req.query "api_key") (queryFirst req.query "routing_key"),
          { messageType := "RECOVERY"
            entityID := Nat.repr wm.groupKey
            timestamp := now
            stateMessage := "Entity recovered"
            monitoringTool := "Prometheus Alertmanager"
            entityDisplayName := String.intercalate ":" d.groupLabelValues }⟩]
    ∧ ∀ dp ∈ (victorops now env req).2,
        dp.post.messageType = "RECOVERY"
        ∧ dp.post.stateMessage = "Entity recovered"
        ∧ dp.post.stateStartTime = 0
        ∧ "state_start_time" ∉ (marshalFields dp.post).map Prod.fst := by
  rw [victorops_resolved now env req wm d h1 h2 h3 h4 h5]
  rw [resolvedBranch_trace]
  refine ⟨rfl, ?_⟩
  intro dp hdp
  rw [List.mem_singleton] at hdp
  subst hdp
  refine ⟨rfl, rfl, rfl, ?_⟩
  simp only [marshalFields, List.map_append, List.mem_append]
  split_ifs <;> simp

/-- Witness for C2 (amended) at a concrete resolved request. -/
theorem C2_resolved_single_recovery_witness :
    (victorops 100 okDownstream (mkReq "resolved" [alertA, alertPlain])).2
      = [⟨"https://alert.victorops.com/integrations/generic/20131114/alert/k1/r1",
          { messageType := "RECOVERY"
            entityID := "42"
            timestamp := 100
            stateMessage := "Entity recovered"
            monitoringTool := "Prometheus Alertmanager"
            entityDisplayName := "web:prod" }⟩] :=
  (C2_resolved_single_recovery 100 okDownstream (mkReq "resolved" [alertA, alertPlain])
    _ _ rfl rfl (by decide) (by decide) rfl).1

/-- The decoded form of a JSON body that carries a status together with
`alerts: null`: while filling the promoted status field, `encoding/json`
allocates the embedded data object, so the data pointer is non-nil and the
alert slice is nil — a nil slice that both the handler's `range` and this
embedding treat as the empty list. -/
def nullAlertsReq (status : String) : Request :=
  { body := Except.ok
      { groupKey := 7
        data := some
          { status := status
            groupLabelValues := ["web"]
            externalURL := "http://am.example"
            alerts := [] } }
    query := [("api_key", ["k1"]), ("routing_key", ["r1"])] }

/-- C4 counterexample: a body that decodes successfully with status
"resolved" and a null alert collection is not rejected with 400 — the only
validation is the nil-data check of line 99, which this body passes — and
the handler dispatches one RECOVERY and answers 200; with status "firing"
the same body is answered 200 with zero dispatches, likewise not 400. -/
theorem C4_counterexample :
    finalCode (victorops 100 okDownstream (nullAlertsReq "resolved")).1 = 200
    ∧ (victorops 100 okDownstream (nullAlertsReq "resolved")).2.length = 1
    ∧ finalCode (victorops 100 okDownstream (nullAlertsReq "firing")).1 = 200
    ∧ (victorops 100 okDownstream (nullAlertsReq "firing")).2 = [] := by
  exact ⟨rfl, rfl, rfl, rfl⟩

/-- C4 (amended): a request whose body decodes but whose embedded data
object is nil — the body carries none of the data fields, the only shape
the nil-data check of line 99 rejects — is answered 400 with no dispatch,
before any status is consulted; a body carrying a status alongside
`alerts: null` allocates the data object, passes the check, and is
processed by its status branch instead. -/
theorem C4_null_data_rejected_400 (now : Int) (env : Downstream) (req : Request)
    (wm : WebhookMessage)
    (h1 : req.body = Except.ok wm) (h2 : wm.data = none) :
    finalCode (victorops now env req).1 = 400 ∧ (victorops now env req).2 = [] := by
  simp [victorops, h1, h2, finalCode, ResponseWriter.writeHeader, ResponseWriter.write]

/-- A decodable request whose embedded data pointer is nil. -/
def nullDataReq : Request :=
  { body := Except.ok { groupKey := 7, data := none }
    query := [("api_key", ["k1"]), ("routing_key", ["r1"])] }

/-- Witness for C4 (amended) at a concrete nil-data request. -/
theorem C4_null_data_rejected_400_witness :
    finalCode (victorops 0 okDownstream nullDataReq).1 = 400
    ∧ (victorops 0 okDownstream nullDataReq).2 = [] :=
  C4_null_data_rejected_400 0 okDownstream nullDataReq _ rfl rfl

/-- C10: a firing request with valid credentials, decodable body, non-nil
data and zero alerts performs no dispatch and is answered 200. -/
theorem C10_firing_empty_alerts_success (now : Int) (env : Downstream) (req : Request)
    (wm : WebhookMessage) (d : WebhookData)
    (h1 : req.body = Except.ok wm) (h2 : wm.data = some d)
    (h3 : queryFirst req.query "api_key" ≠ "")
    (h4 : queryFirst req.query "routing_key" ≠ "")
    (h5 : d.status = "firing")
    (h6 : d.alerts = []) :
    (victorops now env req).2 = [] ∧ finalCode (victorops now env req).1 = 200 := by
  rw [victorops_firing now env req wm d h1 h2 h3 h4 h5, h6]
  exact ⟨rfl, rfl⟩

/-- Witness for C10 at a concrete zero-alert firing request. -/
theorem C10_firing_empty_alerts_success_witness :
    (victorops 100 okDownstream (mkReq "firing" [])).2 = []
    ∧ finalCode (victorops 100 okDownstream (mkReq "firing" [])).1 = 200 :=
  C10_firing_empty_alerts_success 100 okDownstream (mkReq "firing" [])
    _ _ rfl rfl (by decide) (by decide) rfl rfl

/-- C3: in the firing branch, the i-th dispatched message kind is the value
of the alert's `victorops_message_type` label when that label is present
and non-empty, and "CRITICAL" when the label is absent or empty. -/
theorem C3_message_kind_from_override_label (now : Int) (env : Downstream) (req : Request)
    (wm : WebhookMessage) (d : WebhookData)
    (h1 : req.body = Except.ok wm) (h2 : wm.data = some d)
    (h3 : queryFirst req.query "api_key" ≠ "")
    (h4 : queryFirst req.query "routing_key" ≠ "")
    (h5 : d.status = "firing")
    (h6 : ∀ i, i < d.alerts.length → okAt env i) :
    ∀ (i : Nat) (a : Alert), d.alerts[i]? = some a →
      (∀ v, a.labels.lookup "victorops_message_type" = some v → v ≠ "" →
        Option.map victoropsPost.messageType
          (Option.map Dispatch.post ((victorops now env req).2[i]?)) = some v)
      ∧ ((a.labels.lookup "victorops_message_type" = none
          ∨ a.labels.lookup "victorops_message_type" = some "") →
        Option.map victoropsPost.messageType
          (Option.map Dispatch.post ((victorops now env req).2[i]?)) = some "CRITICAL") := by
  have htrace := victorops_firing_trace now env req wm d h1 h2 h3 h4 h5 h6
  intro i a ha
  rw [htrace, List.getElem?_map, ha]
  constructor
  · intro v hv hvne
    simp [firingDispatch, firingPost, mapGet, hv, hvne]
  · intro hcase
    cases hcase with
    | inl hnone => simp [firingDispatch, firingPost, mapGet, hnone]
    | inr hempty => simp [firingDispatch, firingPost, mapGet, hempty]

/-- Witness for C3: the override label "WARNING" is taken for the first
alert, and the second alert without the label defaults to "CRITICAL". -/
theorem C3_message_kind_from_override_label_witness :
    Option.map victoropsPost.messageType (Option.map Dispatch.post
        ((victorops 100 okDownstream (mkReq "firing" [alertA, alertPlain])).2[0]?))
      = some "WARNING"
    ∧ Option.map victoropsPost.messageType (Option.map Dispatch.post
        ((victorops 100 okDownstream (mkReq "firing" [alertA, alertPlain])).2[1]?))
      = some "CRITICAL" := by
  have h := C3_message_kind_from_override_label 100 okDownstream
    (mkReq "firing" [alertA, alertPlain]) _ _ rfl rfl (by decide) (by decide) rfl
    (fun i _ => okDownstream_ok i)
  exact ⟨(h 0 alertA rfl).1 "WARNING" rfl (by decide), (h 1 alertPlain rfl).2 (Or.inl rfl)⟩

/-- C8: in the firing branch dispatches are issued sequentially in alert
order, and the first failed dispatch (transport failure or downstream
non-2xx rejection) is the last one: the trace is exactly the dispatches
for the first i+1 alerts when the i-th POST is the first failure. -/
theorem C8_firing_abort_on_first_failure (now : Int) (env : Downstream) (req : Request)
    (wm : WebhookMessage) (d : WebhookData)
    (h1 : req.body = Except.ok wm) (h2 : wm.data = some d)
    (h3 : queryFirst req.query "api_key" ≠ "")
    (h4 : queryFirst req.query "routing_key" ≠ "")
    (h5 : d.status = "firing")
    (i : Nat) (hi : i < d.alerts.length)
    (hgood : ∀ j, j < i → okAt env j)
    (hfail : ¬ okAt env i) :
    (victorops now env req).2
      = (d.alerts.take (i + 1)).map (firingDispatch (queryFirst req.query "api_key")
          (queryFirst req.query "routing_key") now d.externalURL wm.groupKey
          (String.intercalate ":" d.groupLabelValues))
    ∧ (victorops now env req).2.length = i + 1 := by
  rw [victorops_firing now env req wm d h1 h2 h3 h4 h5]
  have htr := firingLoop_trace_firstFail (queryFirst req.query "api_key")
    (queryFirst req.query "routing_key") now d.externalURL wm.groupKey
    (String.intercalate ":" d.groupLabelValues) env d.alerts 0 ⟨none, ""⟩ i hi
    (by intro j hj; simpa using hgood j hj) (by simpa using hfail)
  rw [htr]
  refine ⟨rfl, ?_⟩
  simp only [List.length_map, List.length_take]
  omega

/-- Witness for C8: with a downstream rejecting the first POST of a
two-alert firing request, exactly one dispatch is issued. -/
theorem C8_firing_abort_on_first_failure_witness :
    (victorops 100 rejectDownstream (mkReq "firing" [alertA, alertPlain])).2.length = 1 :=
  (C8_firing_abort_on_first_failure 100 rejectDownstream
    (mkReq "firing" [alertA, alertPlain]) _ _ rfl rfl (by decide) (by decide) rfl
    0 (by decide) (fun j hj => absurd hj (by omega)) (by decide)).2

/-- C5 counterexample: at a concrete firing request the dispatched state
message carries "Prometheus: <generatorURL>" and
"Alertmanager: <externalURL>" lines, not the "source: "/"aggregator: "
lines the claim prescribes. -/
theorem C5_counterexample :
    Option.map victoropsPost.stateMessage (Option.map Dispatch.post
        (victorops 100 okDownstream (mkReq "firing" [alertA])).2.head?)
      = some "summary: disk full\nvictorops_message_type: WARNING\nsev: page\nPrometheus: http://prom/graph\nAlertmanager: http://am.example"
    ∧ some "summary: disk full\nvictorops_message_type: WARNING\nsev: page\nPrometheus: http://prom/graph\nAlertmanager: http://am.example"
      ≠ some (stateMessageSpecForm "http://am.example" alertA) := by
  exact ⟨rfl, by decide⟩

/-- C5 (amended): in the firing branch, the i-th dispatched state message
is the annotation entries (one "key: value" line each), then the label
entries, followed by a "Prometheus: <generatorURL>" line and an
"Alertmanager: <externalURL>" line (the latter without trailing newline). -/
theorem C5_state_message_layout (now : Int) (env : Downstream) (req : Request)
    (wm : WebhookMessage) (d : WebhookData)
    (h1 : req.body = Except.ok wm) (h2 : wm.data = some d)
    (h3 : queryFirst req.query "api_key" ≠ "")
    (h4 : queryFirst req.query "routing_key" ≠ "")
    (h5 : d.status = "firing")
    (h6 : ∀ i, i < d.alerts.length → okAt env i) :
    ∀ (i : Nat) (a : Alert), d.alerts[i]? = some a →
      Option.map victoropsPost.stateMessage
        (Option.map Dispatch.post ((victorops now env req).2[i]?))
        = some (kvLines a.annotations ++ kvLines a.labels
            ++ "Prometheus: " ++ a.generatorURL ++ "\n"
            ++ "Alertmanager: " ++ d.externalURL) := by
  have htrace := victorops_firing_trace now env req wm d h1 h2 h3 h4 h5 h6
  intro i a ha
  rw [htrace, List.getElem?_map, ha]
  rfl

/-- Witness for C5 (amended) at a concrete one-alert firing request. -/
theorem C5_state_message_layout_witness :
    Option.map victoropsPost.stateMessage (Option.map Dispatch.post
        ((victorops 100 okDownstream (mkReq "firing" [alertA])).2[0]?))
      = some (kvLines alertA.annotations ++ kvLines alertA.labels
          ++ "Prometheus: " ++ alertA.generatorURL ++ "\n"
          ++ "Alertmanager: " ++ "http://am.example") :=
  C5_state_message_layout 100 okDownstream (mkReq "firing" [alertA]) _ _ rfl rfl
    (by decide) (by decide) rfl (fun i _ => okDownstream_ok i) 0 alertA rfl

theorem flatten_perm {α : Type} {l1 l2 : List (List α)} (h : l1.Perm l2) :
    l1.flatten.Perm l2.flatten := by
  induction h with
  | nil => exact List.Perm.refl _
  | cons x _ ih => simpa using ih.append_left x
  | swap x y l =>
    simp only [List.flatten_cons, ← List.append_assoc]
    exact (List.perm_append_comm).append_right _
  | trans _ _ ih1 ih2 => exact ih1.trans ih2

theorem kvLines_foldl_data (m : List (String × String)) :
    ∀ (acc : String), (m.foldl (fun a p => a ++ entryLine p) acc).data
      = acc.data ++ (m.map fun p => (entryLine p).data).flatten := by
  induction m with
  | nil => intro acc; simp
  | cons p rest ih =>
    intro acc
    simp only [List.foldl_cons, List.map_cons, List.flatten_cons]
    rw [ih, String.data_append, List.append_assoc]

theorem kvLines_data (m : List (String × String)) :
    (kvLines m).data = (m.map fun p => (entryLine p).data).flatten := by
  rw [kvLines, kvLines_foldl_data]
  rfl

theorem kvLines_perm {m1 m2 : List (String × String)} (h : m1.Perm m2) :
    (kvLines m1).data.Perm (kvLines m2).data := by
  rw [kvLines_data, kvLines_data]
  exact flatten_perm (h.map _)

/-- Two alerts over the identical annotation map: the runtime enumerated
the same two entries in opposite orders. -/
def alertOrd1 : Alert :=
  { labels := [], annotations := [("a", "1"), ("b", "2")]
    startsAt := 1, generatorURL := "g" }

/-- The same alert as `alertOrd1` with the annotation entries enumerated in
the other order. -/
def alertOrd2 : Alert :=
  { labels := [], annotations := [("b", "2"), ("a", "1")]
    startsAt := 1, generatorURL := "g" }

/-- C9 counterexample: two runs of the handler on the same inbound message
(annotation maps holding exactly the same entries, merely enumerated in a
different order — the orders Go's map iteration may produce on two runs)
yield different state messages, so the state message is not a function of
the map alone. -/
theorem C9_counterexample :
    alertOrd1.annotations.Perm alertOrd2.annotations
    ∧ alertOrd1.labels = alertOrd2.labels
    ∧ Option.map victoropsPost.stateMessage (Option.map Dispatch.post
        (victorops 100 okDownstream (mkReq "firing" [alertOrd1])).2.head?)
      ≠ Option.map victoropsPost.stateMessage (Option.map Dispatch.post
        (victorops 100 okDownstream (mkReq "firing" [alertOrd2])).2.head?) := by
  exact ⟨by decide, rfl, by decide⟩

/-- C9 (amended): the state message is deterministic only relative to the
runtime's map enumeration order: it is a function of the enumeration-ordered
entry lists, and re-enumerating the same maps in another order can change
the string, though only by rearrangement — the character content of the
message is invariant under permuting the entries. -/
theorem C9_state_message_enumeration_order (now : Int) (externalURL : String)
    (groupKey : Nat) (displayName : String) (a1 a2 : Alert)
    (hann : a1.annotations.Perm a2.annotations)
    (hlab : a1.labels.Perm a2.labels)
    (hgen : a1.generatorURL = a2.generatorURL) :
    ((firingPost now externalURL groupKey displayName a1).stateMessage).data.Perm
      ((firingPost now externalURL groupKey displayName a2).stateMessage).data := by
  simp only [firingPost, String.data_append]
  rw [hgen]
  exact (((((((kvLines_perm hann).append (kvLines_perm hlab)).append_right
    _).append_right _).append_right _).append_right _).append_right _)

/-- Witness for C9 (amended) at the two concrete enumeration orders. -/
theorem C9_state_message_enumeration_order_witness :
    ((firingPost 100 "e" 42 "dn" alertOrd1).stateMessage).data.Perm
      ((firingPost 100 "e" 42 "dn" alertOrd2).stateMessage).data :=
  C9_state_message_enumeration_order 100 "e" 42 "dn" alertOrd1 alertOrd2
    (by decide) (List.Perm.refl _) rfl

/-- A downstream that answers every POST 200 with an undecodable body. -/
def undecodableOkDownstream : Downstream :=
  fun _ =>
    { transportOk := true, statusCode := 200, decoded := none
      decodeErr := "invalid character" }

theorem undecodableOkDownstream_ok (n : Nat) : okAt undecodableOkDownstream n := by
  simp [okAt, undecodableOkDownstream]

/-- C6 counterexample: a dispatch whose downstream response is non-2xx (a
500) but whose body fails to decode leaves the original caller with HTTP
200 in the firing path: the decode-failure write fixes the implicit 200
status, so the later 502 header is ignored. -/
theorem C6_counterexample :
    (undecodableRejectDownstream 0).statusCode / 100 ≠ 2
    ∧ finalCode (victorops 100 undecodableRejectDownstream
        (mkReq "firing" [alertPlain])).1 = 200 := by
  exact ⟨by decide, rfl⟩

/-- C6 (amended): for a dispatch whose downstream response has a non-2xx
status and a decodable envelope — all earlier dispatches of the request
having succeeded with decodable envelopes — the original caller receives
502 with the downstream envelope's message embedded in the body. -/
theorem C6_downstream_rejection_502 (now : Int) (env : Downstream) (req : Request)
    (wm : WebhookMessage) (d : WebhookData)
    (h1 : req.body = Except.ok wm) (h2 : wm.data = some d)
    (h3 : queryFirst req.query "api_key" ≠ "")
    (h4 : queryFirst req.query "routing_key" ≠ "")
    (hstatus : d.status = "firing" ∨ d.status = "resolved")
    (i : Nat) (vr : victoropsResponse)
    (hi : i < (if d.status = "firing" then d.alerts.length else 1))
    (hgood : ∀ j, j < i → okAt env j ∧ ((env j).decoded).isSome = true)
    (htr : (env i).transportOk = true)
    (hst : (env i).statusCode / 100 ≠ 2)
    (hdec : (env i).decoded = some vr) :
    finalCode (victorops now env req).1 = 502
    ∧ ∃ s t, (victorops now env req).1.body = s ++ vr.message ++ t := by
  cases hstatus with
  | inl hf =>
    rw [if_pos hf] at hi
    rw [victorops_firing now env req wm d h1 h2 h3 h4 hf]
    have hrw := firingLoop_rw_reject (queryFirst req.query "api_key")
      (queryFirst req.query "routing_key") now d.externalURL wm.groupKey
      (String.intercalate ":" d.groupLabelValues) env d.alerts 0 ⟨none, ""⟩ i vr hi
      (by intro j hj; simpa using hgood j hj) (by simpa using htr)
      (by simpa using hst) (by simpa using hdec)
    rw [hrw]
    refine ⟨rfl, "Unexpected status code " ++ Nat.repr ((env (0 + i)).statusCode)
      ++ " from VictorOps: ", "", ?_⟩
    simp [ResponseWriter.write, ResponseWriter.writeHeader]
  | inr hr =>
    rw [hr, if_neg (by decide)] at hi
    have hiz : i = 0 := by omega
    subst hiz
    rw [victorops_resolved now env req wm d h1 h2 h3 h4 hr]
    simp only [resolvedBranch, htr, hdec, Bool.true_eq_false, if_false, ne_eq, hst,
      not_false_eq_true, if_true]
    exact ⟨rfl, "Unexpected status code ", " from VictorOps: ",
      by simp [ResponseWriter.write, ResponseWriter.writeHeader]⟩

/-- Witness for C6 (amended): downstream 500 with a decodable failure body
on a resolved request yields 502 with "bad routing key" embedded. -/
theorem C6_downstream_rejection_502_witness :
    finalCode (victorops 100 rejectDownstream (mkReq "resolved" [alertA])).1 = 502
    ∧ ∃ s t, (victorops 100 rejectDownstream (mkReq "resolved" [alertA])).1.body
        = s ++ "bad routing key" ++ t :=
  C6_downstream_rejection_502 100 rejectDownstream (mkReq "resolved" [alertA])
    _ _ rfl rfl (by decide) (by decide) (Or.inr rfl) 0
    { result := "failure", message := "bad routing key" }
    (by decide) (fun j hj => absurd hj (by omega)) rfl (by decide) rfl

/-- C7: a downstream-envelope decode failure aborts the resolved path —
one dispatch, status 502, and the body is exactly the decode error (the
status-code check is never reached) — but does not abort the firing path:
with every response transport-OK and 2xx, all alerts are dispatched no
matter which envelopes fail to decode. -/
theorem C7_decode_failure_asymmetry (now : Int) (env : Downstream) (req : Request)
    (wm : WebhookMessage) (d : WebhookData)
    (h1 : req.body = Except.ok wm) (h2 : wm.data = some d)
    (h3 : queryFirst req.query "api_key" ≠ "")
    (h4 : queryFirst req.query "routing_key" ≠ "") :
    (d.status = "resolved" →
      (env 0).transportOk = true → (env 0).decoded = none →
      finalCode (victorops now env req).1 = 502
      ∧ (victorops now env req).1.body
          = "Could not decode VictorOps response body: " ++ (env 0).decodeErr
      ∧ (victorops now env req).2.length = 1)
    ∧ (d.status = "firing" →
      (∀ i, i < d.alerts.length → okAt env i) →
      (victorops now env req).2.length = d.alerts.length) := by
  constructor
  · intro hr htr hdec
    rw [victorops_resolved now env req wm d h1 h2 h3 h4 hr]
    simp [resolvedBranch, htr, hdec, finalCode,
      ResponseWriter.write, ResponseWriter.writeHeader]
  · intro hf h6
    rw [victorops_firing_trace now env req wm d h1 h2 h3 h4 hf h6]
    simp

/-- Witness for C7: an undecodable envelope after a 500 aborts a resolved
request with 502 and only the decode-error body, while 200s with
undecodable envelopes let a two-alert firing request dispatch both. -/
theorem C7_decode_failure_asymmetry_witness :
    (finalCode (victorops 100 undecodableRejectDownstream (mkReq "resolved" [alertA])).1 = 502
      ∧ (victorops 100 undecodableRejectDownstream (mkReq "resolved" [alertA])).1.body
          = "Could not decode VictorOps response body: " ++ "invalid character"
      ∧ (victorops 100 undecodableRejectDownstream (mkReq "resolved" [alertA])).2.length = 1)
    ∧ (victorops 100 undecodableOkDownstream (mkReq "firing" [alertA, alertPlain])).2.length = 2 := by
  constructor
  · exact (C7_decode_failure_asymmetry 100 undecodableRejectDownstream
      (mkReq "resolved" [alertA]) _ _ rfl rfl (by decide) (by decide)).1 rfl rfl rfl
  · exact (C7_decode_failure_asymmetry 100 undecodableOkDownstream
      (mkReq "firing" [alertA, alertPlain]) _ _ rfl rfl (by decide) (by decide)).2 rfl
      (fun i _ => undecodableOkDownstream_ok i)

end AmRestTranslator
